import Mathlib

/-!
Verification of the benlink frame codec, message variant registry,
resynchronizing stream decoder (src/fix_log.py) and the handler dispatch
loop of the audio connection (src/benlink/audio.py).

Bytes are modelled as `List Nat` (each element a byte value); a raised
Python exception is modelled by the `Except`/`FeedResult` error cases.
-/

/-- Errors raised by the decoder: `headerErr` embeds `HeaderDecodeError`
(its second field receives exactly what the source passes, namely the
buffer after the 8-byte header was sliced off); `bodyErr` embeds
`BodyDecodeError` with the variant type string, the message and the body. -/
inductive DecodeError
  | headerErr (message : String) (header : List Nat)
  | bodyErr (type_str : String) (message : String) (body : List Nat)
deriving DecidableEq, Repr

/-- Decode status of an APRS chunk, the `t.Literal["ok", "error"]` of the source. -/
inductive DecodeStatus
  | ok
  | error
deriving DecidableEq, Repr

/-- Embedding of the `UnknownMessage` named tuple. -/
structure UnknownMessage where
  message_type_id : Nat × Nat
  data : List Nat
deriving DecidableEq, Repr

/-- Embedding of the `SetDigitalMessageUpdates` named tuple. -/
structure SetDigitalMessageUpdates where
  enabled : Bool
deriving DecidableEq, Repr

/-- Embedding of the `ChannelInfoRequest` named tuple. -/
structure ChannelInfoRequest where
  channel_id : Nat
deriving DecidableEq, Repr

/-- Embedding of the `ChannelInfoResponse` named tuple. -/
structure ChannelInfoResponse where
  action_id : Nat
  channel_id : Nat
  channel_data : List Nat
deriving DecidableEq, Repr

/-- Embedding of the `RadioReceivedAprsChunk` named tuple. -/
structure RadioReceivedAprsChunk where
  chunk_data : List Nat
  chunk_num : Nat
  is_final_chunk : Bool
  decode_status : DecodeStatus
deriving DecidableEq, Repr

/-- The `HTMessage` union as a sum type. -/
inductive HTMessage
  | aprsChunk (m : RadioReceivedAprsChunk)
  | channelInfoRequest (m : ChannelInfoRequest)
  | channelInfoResponse (m : ChannelInfoResponse)
  | setDigitalMessageUpdates (m : SetDigitalMessageUpdates)
  | unknown (m : UnknownMessage)
deriving DecidableEq, Repr

/-- Embedding of `message_type_id` (fix_log.py lines 35-46). -/
def message_type_id : HTMessage → Nat × Nat
  | .aprsChunk _ => (0x00, 0x09)
  | .channelInfoRequest _ => (0x00, 0x0D)
  | .channelInfoResponse _ => (0x00, 0x0E)
  | .setDigitalMessageUpdates _ => (0x00, 0x06)
  | .unknown m => m.message_type_id

/-- Embedding of `UnknownMessage.from_message_body`: always succeeds. -/
def UnknownMessage.from_message_body (body : List Nat) (mtid : Nat × Nat) : UnknownMessage :=
  { message_type_id := mtid, data := body }

/-- Embedding of `UnknownMessage.to_message_body`. -/
def UnknownMessage.to_message_body (m : UnknownMessage) : List Nat :=
  m.data

/-- Embedding of `SetDigitalMessageUpdates.from_message_body` (lines 70-84):
length must be exactly 1 and the byte must be 0x00 or 0x01. -/
def SetDigitalMessageUpdates.from_message_body (body : List Nat) :
    Except DecodeError SetDigitalMessageUpdates :=
  match body with
  | [b0] =>
    if b0 = 0x00 ∨ b0 = 0x01 then
      .ok { enabled := decide (b0 = 0x01) }
    else
      .error (.bodyErr "set_messaging_reports"
        ("Expected byte[0] to be 0x00 or 0x01, got " ++ toString b0) body)
  | _ =>
    .error (.bodyErr "set_digital_message_updates"
      ("Expected body length 1, got " ++ toString body.length) body)

/-- Embedding of `SetDigitalMessageUpdates.to_message_body`. -/
def SetDigitalMessageUpdates.to_message_body (m : SetDigitalMessageUpdates) : List Nat :=
  [if m.enabled then 0x01 else 0x00]

/-- Embedding of `ChannelInfoRequest.from_message_body` (lines 93-101). -/
def ChannelInfoRequest.from_message_body (body : List Nat) :
    Except DecodeError ChannelInfoRequest :=
  match body with
  | [b0] => .ok { channel_id := b0 }
  | _ =>
    .error (.bodyErr "channel_info_request"
      ("Expected body length 1, got " ++ toString body.length) body)

/-- Embedding of `ChannelInfoRequest.to_message_body`. -/
def ChannelInfoRequest.to_message_body (m : ChannelInfoRequest) : List Nat :=
  [m.channel_id]

/-- Embedding of `ChannelInfoResponse.from_message_body` (lines 112-130):
needs at least 2 bytes, destructures action id, channel id and the rest. -/
def ChannelInfoResponse.from_message_body (body : List Nat) :
    Except DecodeError ChannelInfoResponse :=
  match body with
  | action_id :: channel_id :: channel_data =>
    .ok { action_id := action_id, channel_id := channel_id, channel_data := channel_data }
  | _ =>
    .error (.bodyErr "channel_info_response"
      ("Expected least 1 byte, got " ++ toString body.length) body)

/-- Embedding of `ChannelInfoResponse.to_message_body` (lines 132-133): the
action-id byte is emitted as the literal 0x00, not the stored field. -/
def ChannelInfoResponse.to_message_body (m : ChannelInfoResponse) : List Nat :=
  0x00 :: m.channel_id :: m.channel_data

/-- Embedding of `RadioReceivedAprsChunk.from_message_body` (lines 142-180). -/
def RadioReceivedAprsChunk.from_message_body (body : List Nat) :
    Except DecodeError RadioReceivedAprsChunk :=
  match body with
  | decode_status_id :: chunk_info :: aprs_body =>
    match decode_status_id with
    | 0x01 =>
      .ok { chunk_data := aprs_body, chunk_num := Nat.land chunk_info 0x7f,
            is_final_chunk := decide (Nat.land chunk_info 0x80 = 0x80),
            decode_status := .error }
    | 0x02 =>
      .ok { chunk_data := aprs_body, chunk_num := Nat.land chunk_info 0x7f,
            is_final_chunk := decide (Nat.land chunk_info 0x80 = 0x80),
            decode_status := .ok }
    | _ =>
      .error (.bodyErr "radio_received_aprs_chunk"
        ("Unknown decode status: " ++ toString decode_status_id) body)
  | _ =>
    .error (.bodyErr "radio_received_aprs_chunk"
      ("Expected least 2 bytes, got " ++ toString body.length) body)

/-- Embedding of `RadioReceivedAprsChunk.to_message_body` (lines 182-189). -/
def RadioReceivedAprsChunk.to_message_body (m : RadioReceivedAprsChunk) : List Nat :=
  let chunk_info := Nat.lor m.chunk_num (if m.is_final_chunk then 0x80 else 0x00)
  let decode_status_id := match m.decode_status with
    | .error => 0x01
    | .ok => 0x02
  decode_status_id :: chunk_info :: m.chunk_data

/-- Dispatch of `msg.to_message_body()` over the union. -/
def HTMessage.to_message_body : HTMessage → List Nat
  | .aprsChunk m => m.to_message_body
  | .channelInfoRequest m => m.to_message_body
  | .channelInfoResponse m => m.to_message_body
  | .setDigitalMessageUpdates m => m.to_message_body
  | .unknown m => m.to_message_body

/-- Embedding of `encode_ht_message` (lines 201-214). -/
def encode_ht_message (msg : HTMessage) : List Nat :=
  let body := msg.to_message_body
  [0xff, 0x01, 0x00, body.length, 0x00, 0x02,
    (message_type_id msg).1, (message_type_id msg).2] ++ body

/-- The `match message_type_id` dispatch at the end of `decode_ht_message`
(lines 268-295): route the body to the variant decoder named by the type id,
with `UnknownMessage` as the total fallback. The Python structural match on a
pair of ints is equality dispatch, rendered as an if-chain. -/
def dispatch (message_type_id_1 message_type_id_2 : Nat) (body buffer : List Nat) :
    Except DecodeError (Option HTMessage × List Nat) :=
  if message_type_id_1 = 0x00 ∧ message_type_id_2 = 0x09 then
    (RadioReceivedAprsChunk.from_message_body body).map
      (fun m => (some (HTMessage.aprsChunk m), buffer))
  else if message_type_id_1 = 0x00 ∧ message_type_id_2 = 0x0D then
    (ChannelInfoRequest.from_message_body body).map
      (fun m => (some (HTMessage.channelInfoRequest m), buffer))
  else if message_type_id_1 = 0x80 ∧ message_type_id_2 = 0x0D then
    (ChannelInfoResponse.from_message_body body).map
      (fun m => (some (HTMessage.channelInfoResponse m), buffer))
  else if message_type_id_1 = 0x00 ∧ message_type_id_2 = 0x06 then
    (SetDigitalMessageUpdates.from_message_body body).map
      (fun m => (some (HTMessage.setDigitalMessageUpdates m), buffer))
  else
    .ok (some (HTMessage.unknown
      (UnknownMessage.from_message_body body (message_type_id_1, message_type_id_2))),
      buffer)

/-- Embedding of `decode_ht_message` (lines 217-295). Note two source
behaviors preserved exactly: every `HeaderDecodeError` is constructed with
the buffer AFTER the 8-byte header slice (the reassigned `buffer`), and the
need-more-data return when `body_length` exceeds the remainder also returns
that post-header remainder, i.e. the header bytes are consumed. -/
def decode_ht_message (buffer : List Nat) :
    Except DecodeError (Option HTMessage × List Nat) :=
  match buffer with
  | start_flag :: constant_1 :: reserved_1 :: body_length ::
      reserved_2 :: constant_2 :: message_type_id_1 :: message_type_id_2 :: rest =>
    if start_flag ≠ 0xff then
      .error (.headerErr ("Expected byte[0](start_flag) = 0xff, got " ++ toString start_flag) rest)
    else if constant_1 ≠ 0x01 then
      .error (.headerErr ("Expected byte[1](constant_1) = 0x01, got " ++ toString constant_1) rest)
    else if reserved_1 ≠ 0x00 then
      .error (.headerErr ("Expected byte[2](reserved_1) = 0x00, got " ++ toString reserved_1) rest)
    else if reserved_2 ≠ 0x00 then
      .error (.headerErr ("Expected byte[4](reserved_2) = 0x00, got " ++ toString reserved_2) rest)
    else if constant_2 ≠ 0x02 then
      .error (.headerErr ("Expected byte[5](constant_2) = 0x02, got " ++ toString constant_2) rest)
    else if body_length > rest.length then
      .ok (none, rest)
    else
      dispatch message_type_id_1 message_type_id_2
        (rest.take body_length) (rest.drop body_length)
  | _ => .ok (none, buffer)

/-- Embedding of Python `bytes.find(b"\xff")`: index of the first 0xff byte,
`none` for the source's -1. -/
def find_ff : List Nat → Option Nat
  | [] => none
  | b :: rest => if b = 0xff then some 0 else (find_ff rest).map (· + 1)

/-- Outcome of a `feed` call: a normal return with the decoded messages, or a
propagated decode exception. -/
inductive FeedResult
  | ok (messages : List HTMessage)
  | raised (e : DecodeError)
deriving DecidableEq, Repr

/-- The while loop of `HTMessageStream.feed` (lines 309-327), with explicit
fuel (each iteration strictly shrinks the buffer, so `length + 1` fuel is
never exhausted). The first component of the result is the accumulator
`self._buffer` as left by the call. When `decode_ht_message` raises, the
tuple assignment in the source is skipped, so the buffer keeps its value
from before the failing decode. The diagnostic print to stderr during
resynchronization has no observable effect and is omitted. -/
def feedLoop (fuel : Nat) (buffer : List Nat) (acc : List HTMessage) :
    List Nat × FeedResult :=
  match fuel with
  | 0 => (buffer, .ok acc)
  | fuel + 1 =>
    if buffer.length < 8 then (buffer, .ok acc)
    else if buffer.headI ≠ 0xff then
      match find_ff buffer with
      | none => feedLoop fuel [] acc
      | some idx => feedLoop fuel (buffer.drop idx) acc
    else
      match decode_ht_message buffer with
      | .error e => (buffer, .raised e)
      | .ok (none, rest) => (rest, .ok acc)
      | .ok (some msg, rest) => feedLoop fuel rest (acc ++ [msg])

/-- Embedding of `HTMessageStream.feed` (lines 304-329): append the new data
to the accumulator and run the decode loop. The state is passed explicitly:
the argument `buffer` is the accumulator before the call, the first result
component the accumulator after it. -/
def HTMessageStream.feed (buffer data : List Nat) : List Nat × FeedResult :=
  let b := buffer ++ data
  feedLoop (b.length + 1) b []

/-- Shallow embedding of the handler dispatch loop inside
`AudioConnection.connect` (src/benlink/audio.py lines 62-66):
for each registered handler in registration order, invoke it on the
delivered message. A handler is modelled as a function from the message and
the current world state to `Except`, where `.error` models the handler
raising an exception; the source loop body has no try/except, so the loop is
strict sequencing that stops at the first raise. -/
def AudioConnection.dispatch_on_msg {α σ ε : Type} (handlers : List (α → σ → Except ε σ))
    (msg : α) (s : σ) : Except ε σ :=
  match handlers with
  | [] => .ok s
  | h :: rest =>
    match h msg s with
    | .error e => .error e
    | .ok s2 => AudioConnection.dispatch_on_msg rest msg s2

/-- Decidable equality for `Except`, used to evaluate decoder results on
concrete inputs. -/
instance {ε α : Type} [DecidableEq ε] [DecidableEq α] : DecidableEq (Except ε α) := fun a b =>
  match a, b with
  | .ok x, .ok y =>
    if h : x = y then .isTrue (h ▸ rfl) else .isFalse (fun hh => h (by cases hh; rfl))
  | .error x, .error y =>
    if h : x = y then .isTrue (h ▸ rfl) else .isFalse (fun hh => h (by cases hh; rfl))
  | .ok _, .error _ => .isFalse (fun hh => by cases hh)
  | .error _, .ok _ => .isFalse (fun hh => by cases hh)

/-! Helper lemmas about the bit operations used by the APRS chunk codec. -/

/-- Masking with 0x7f recovers a chunk number below 128 after setting the final bit. -/
theorem land_lor_final : ∀ n, n < 128 → Nat.land (Nat.lor n 0x80) 0x7f = n := by decide

/-- The final bit is set after oring with 0x80. -/
theorem land_lor_final_bit : ∀ n, n < 128 → Nat.land (Nat.lor n 0x80) 0x80 = 0x80 := by decide

/-- Masking with 0x7f recovers a chunk number below 128 when the final bit is clear. -/
theorem land_lor_zero : ∀ n, n < 128 → Nat.land (Nat.lor n 0x00) 0x7f = n := by decide

/-- The final bit is clear for a chunk number below 128 ored with 0x00. -/
theorem land_lor_zero_bit : ∀ n, n < 128 → Nat.land (Nat.lor n 0x00) 0x80 = 0 := by decide

/-! Body-level round trips for the variant registry. -/

/-- Body round trip for `RadioReceivedAprsChunk` when the chunk number fits in 7 bits. -/
theorem aprs_from_to (m : RadioReceivedAprsChunk) (h : m.chunk_num ≤ 127) :
    RadioReceivedAprsChunk.from_message_body m.to_message_body = .ok m := by
  obtain ⟨data, n, fin, st⟩ := m
  simp only at h
  have h1 := land_lor_final n (by omega)
  have h2 := land_lor_final_bit n (by omega)
  have h3 := land_lor_zero n (by omega)
  have h4 := land_lor_zero_bit n (by omega)
  cases st <;> cases fin <;>
    simp [RadioReceivedAprsChunk.to_message_body, RadioReceivedAprsChunk.from_message_body,
      h1, h2, h3, h4]

/-- Body round trip for `ChannelInfoRequest`. -/
theorem cirq_from_to (m : ChannelInfoRequest) :
    ChannelInfoRequest.from_message_body m.to_message_body = .ok m := by
  obtain ⟨c⟩ := m
  rfl

/-- Body round trip for `SetDigitalMessageUpdates`. -/
theorem sdmu_from_to (m : SetDigitalMessageUpdates) :
    SetDigitalMessageUpdates.from_message_body m.to_message_body = .ok m := by
  obtain ⟨e⟩ := m
  cases e <;> rfl

/-- Body round trip for `ChannelInfoResponse` zeroes the action id. -/
theorem cirsp_from_to (m : ChannelInfoResponse) :
    ChannelInfoResponse.from_message_body m.to_message_body =
      .ok ⟨0x00, m.channel_id, m.channel_data⟩ := by
  obtain ⟨a, c, d⟩ := m
  rfl

/-! Frame-level decode lemmas. -/

/-- Decoding a well-formed frame (valid constants, length field equal to the
body length) dispatches the body by type id and leaves the trailing bytes. -/
theorem decode_frame (t1 t2 : Nat) (body g : List Nat) :
    decode_ht_message ([0xff, 0x01, 0x00, body.length, 0x00, 0x02, t1, t2] ++ (body ++ g)) =
      dispatch t1 t2 body g := by
  have hlen : ¬ (body.length > (body ++ g).length) := by
    rw [List.length_append]; omega
  show decode_ht_message
      (0xff :: 0x01 :: 0x00 :: body.length :: 0x00 :: 0x02 :: t1 :: t2 :: (body ++ g)) =
    dispatch t1 t2 body g
  simp only [decode_ht_message]
  simp [hlen, List.take_left, List.drop_left]

/-- Decoding an encoded `ChannelInfoRequest` frame with trailing bytes. -/
theorem decode_encode_cirq (m : ChannelInfoRequest) (g : List Nat) :
    decode_ht_message (encode_ht_message (.channelInfoRequest m) ++ g) =
      .ok (some (.channelInfoRequest m), g) := by
  have he : encode_ht_message (.channelInfoRequest m) ++ g =
      [0xff, 0x01, 0x00, (ChannelInfoRequest.to_message_body m).length, 0x00, 0x02,
        0x00, 0x0D] ++ (ChannelInfoRequest.to_message_body m ++ g) := by
    simp [encode_ht_message, message_type_id, HTMessage.to_message_body]
  rw [he, decode_frame]
  simp [dispatch, cirq_from_to m, Except.map]

/-- Decoding an encoded `SetDigitalMessageUpdates` frame with trailing bytes. -/
theorem decode_encode_sdmu (m : SetDigitalMessageUpdates) (g : List Nat) :
    decode_ht_message (encode_ht_message (.setDigitalMessageUpdates m) ++ g) =
      .ok (some (.setDigitalMessageUpdates m), g) := by
  have he : encode_ht_message (.setDigitalMessageUpdates m) ++ g =
      [0xff, 0x01, 0x00, (SetDigitalMessageUpdates.to_message_body m).length, 0x00, 0x02,
        0x00, 0x06] ++ (SetDigitalMessageUpdates.to_message_body m ++ g) := by
    simp [encode_ht_message, message_type_id, HTMessage.to_message_body]
  rw [he, decode_frame]
  simp [dispatch, sdmu_from_to m, Except.map]

/-- Decoding an encoded `RadioReceivedAprsChunk` frame with trailing bytes. -/
theorem decode_encode_aprs (m : RadioReceivedAprsChunk) (h : m.chunk_num ≤ 127) (g : List Nat) :
    decode_ht_message (encode_ht_message (.aprsChunk m) ++ g) =
      .ok (some (.aprsChunk m), g) := by
  have he : encode_ht_message (.aprsChunk m) ++ g =
      [0xff, 0x01, 0x00, (RadioReceivedAprsChunk.to_message_body m).length, 0x00, 0x02,
        0x00, 0x09] ++ (RadioReceivedAprsChunk.to_message_body m ++ g) := by
    simp [encode_ht_message, message_type_id, HTMessage.to_message_body]
  rw [he, decode_frame]
  simp [dispatch, aprs_from_to m h, Except.map]

/-- Decoding an encoded `UnknownMessage` frame whose type id is outside the
known decode set, with trailing bytes. -/
theorem decode_encode_unknown (t1 t2 : Nat) (data g : List Nat)
    (h1 : ¬(t1 = 0x00 ∧ t2 = 0x09)) (h2 : ¬(t1 = 0x00 ∧ t2 = 0x0D))
    (h3 : ¬(t1 = 0x80 ∧ t2 = 0x0D)) (h4 : ¬(t1 = 0x00 ∧ t2 = 0x06)) :
    decode_ht_message (encode_ht_message (.unknown ⟨(t1, t2), data⟩) ++ g) =
      .ok (some (.unknown ⟨(t1, t2), data⟩), g) := by
  have he : encode_ht_message (.unknown ⟨(t1, t2), data⟩) ++ g =
      [0xff, 0x01, 0x00, data.length, 0x00, 0x02, t1, t2] ++ (data ++ g) := by
    simp [encode_ht_message, message_type_id, HTMessage.to_message_body,
      UnknownMessage.to_message_body]
  rw [he, decode_frame]
  simp [dispatch, h1, h2, h3, h4, UnknownMessage.from_message_body]

/-- Decoding an encoded `ChannelInfoResponse` frame yields an `UnknownMessage`
with type id (0x00, 0x0E) and the zeroed-action-id body: the encode-side type
id is not in the decode dispatch. -/
theorem decode_encode_cirsp (m : ChannelInfoResponse) (g : List Nat) :
    decode_ht_message (encode_ht_message (.channelInfoResponse m) ++ g) =
      .ok (some (.unknown ⟨(0x00, 0x0E), 0x00 :: m.channel_id :: m.channel_data⟩), g) := by
  have he : encode_ht_message (.channelInfoResponse m) ++ g =
      [0xff, 0x01, 0x00, (ChannelInfoResponse.to_message_body m).length, 0x00, 0x02,
        0x00, 0x0E] ++ (ChannelInfoResponse.to_message_body m ++ g) := by
    simp [encode_ht_message, message_type_id, HTMessage.to_message_body]
  rw [he, decode_frame]
  simp [dispatch, UnknownMessage.from_message_body, ChannelInfoResponse.to_message_body]

/-! Step lemmas for the feed loop. -/

/-- With fewer than 8 buffered bytes the loop returns at once. -/
theorem feedLoop_low (fuel : Nat) (buffer : List Nat) (acc : List HTMessage)
    (h : buffer.length < 8) : feedLoop (fuel + 1) buffer acc = (buffer, .ok acc) := by
  simp [feedLoop, h]

/-- A buffer not starting with 0xff is resynchronized to the first 0xff. -/
theorem feedLoop_resync (fuel : Nat) (buffer : List Nat) (acc : List HTMessage) (idx : Nat)
    (h8 : ¬ buffer.length < 8) (hh : buffer.headI ≠ 0xff) (hf : find_ff buffer = some idx) :
    feedLoop (fuel + 1) buffer acc = feedLoop fuel (buffer.drop idx) acc := by
  simp [feedLoop, h8, hh, hf]

/-- A successful decode appends the message and continues on the remainder. -/
theorem feedLoop_msg (fuel : Nat) (buffer : List Nat) (acc : List HTMessage)
    (msg : HTMessage) (rest : List Nat)
    (h8 : ¬ buffer.length < 8) (hh : buffer.headI = 0xff)
    (hd : decode_ht_message buffer = .ok (some msg, rest)) :
    feedLoop (fuel + 1) buffer acc = feedLoop fuel rest (acc ++ [msg]) := by
  simp [feedLoop, h8, hh, hd]

/-- A need-more-data decode stops the loop, keeping the returned remainder. -/
theorem feedLoop_none (fuel : Nat) (buffer : List Nat) (acc : List HTMessage) (rest : List Nat)
    (h8 : ¬ buffer.length < 8) (hh : buffer.headI = 0xff)
    (hd : decode_ht_message buffer = .ok (none, rest)) :
    feedLoop (fuel + 1) buffer acc = (rest, .ok acc) := by
  simp [feedLoop, h8, hh, hd]

/-- A decode error propagates, leaving the buffer as it was before the failing
decode (the assignment in the source is skipped when the call raises). -/
theorem feedLoop_err (fuel : Nat) (buffer : List Nat) (acc : List HTMessage) (e : DecodeError)
    (h8 : ¬ buffer.length < 8) (hh : buffer.headI = 0xff)
    (hd : decode_ht_message buffer = .error e) :
    feedLoop (fuel + 1) buffer acc = (buffer, .raised e) := by
  simp [feedLoop, h8, hh, hd]

/-! Claim theorems. -/

/-- C1: the claim states that splitting an encoded frame across feed calls at
any byte boundary yields [] for prefix-only calls and [msg] on completion.
The code violates this: feeding exactly the 8-byte header of
ChannelInfoRequest(5) consumes the header while reporting need-more-data, so
the completing call that supplies the body byte returns no message, although
the unsplit frame decodes to the message. -/
theorem c1_split_header_lost :
    HTMessageStream.feed [] [0xff, 0x01, 0x00, 0x01, 0x00, 0x02, 0x00, 0x0D] =
      ([], .ok []) ∧
    HTMessageStream.feed [] [0x05] = ([0x05], .ok []) ∧
    HTMessageStream.feed [] ([0xff, 0x01, 0x00, 0x01, 0x00, 0x02, 0x00, 0x0D] ++ [0x05]) =
      ([], .ok [.channelInfoRequest ⟨0x05⟩]) := by
  decide

/-- C2: the claim states that when body_length exceeds the available bytes the
decoder returns need-more-data with nothing consumed. The code violates this:
on the 8-byte header of a frame announcing a 1-byte body it returns the
empty remainder, i.e. the 8 header bytes are consumed. -/
theorem c2_need_more_data_consumes_header :
    decode_ht_message [0xff, 0x01, 0x00, 0x01, 0x00, 0x02, 0x00, 0x0D] = .ok (none, []) ∧
    ([] : List Nat) ≠ [0xff, 0x01, 0x00, 0x01, 0x00, 0x02, 0x00, 0x0D] := by
  decide

/-- C3: ChannelInfoResponse encodes under type id (0x00, 0x0E), the decode
dispatch routes (0x80, 0x0D) to the ChannelInfoResponse body decoder, and the
body encoder emits 0x00 as the action-id byte regardless of the stored
action_id, followed by channel_id and channel_data. -/
theorem c3_channel_info_response_ids :
    (∀ m : ChannelInfoResponse, message_type_id (.channelInfoResponse m) = (0x00, 0x0E)) ∧
    (∀ body buffer : List Nat, dispatch 0x80 0x0D body buffer =
      (ChannelInfoResponse.from_message_body body).map
        (fun m => (some (HTMessage.channelInfoResponse m), buffer))) ∧
    (∀ m : ChannelInfoResponse, ChannelInfoResponse.to_message_body m =
      0x00 :: m.channel_id :: m.channel_data) := by
  refine ⟨fun m => rfl, fun body buffer => ?_, fun m => rfl⟩
  simp [dispatch]

/-- C4 counterexample: ChannelInfoResponse with action_id = 1 does not
round-trip through its body codec; the decoded value has action_id 0. -/
theorem c4_counterexample :
    ChannelInfoResponse.from_message_body
      (ChannelInfoResponse.to_message_body ⟨0x01, 0x00, []⟩) = .ok ⟨0x00, 0x00, []⟩ ∧
    (⟨0x00, 0x00, []⟩ : ChannelInfoResponse) ≠ ⟨0x01, 0x00, []⟩ := by
  decide

/-- C4 amended: decode_body (encode_body v) = v holds for
RadioReceivedAprsChunk with chunk_num in 0..127, for ChannelInfoRequest and
for SetDigitalMessageUpdates; for ChannelInfoResponse the round trip returns
the value with its action_id replaced by 0x00, so it holds only when the
stored action_id is 0. -/
theorem c4_roundtrip_amended :
    (∀ m : RadioReceivedAprsChunk, m.chunk_num ≤ 127 →
      RadioReceivedAprsChunk.from_message_body m.to_message_body = .ok m) ∧
    (∀ m : ChannelInfoRequest,
      ChannelInfoRequest.from_message_body m.to_message_body = .ok m) ∧
    (∀ m : SetDigitalMessageUpdates,
      SetDigitalMessageUpdates.from_message_body m.to_message_body = .ok m) ∧
    (∀ m : ChannelInfoResponse,
      ChannelInfoResponse.from_message_body m.to_message_body =
        .ok ⟨0x00, m.channel_id, m.channel_data⟩) :=
  ⟨aprs_from_to, cirq_from_to, sdmu_from_to, cirsp_from_to⟩

/-- C4 witness: the amended round trip at a concrete APRS chunk. -/
theorem c4_witness :
    (⟨[0x41, 0x42], 0x03, true, .ok⟩ : RadioReceivedAprsChunk).chunk_num ≤ 127 ∧
    RadioReceivedAprsChunk.from_message_body
      (RadioReceivedAprsChunk.to_message_body ⟨[0x41, 0x42], 0x03, true, .ok⟩) =
      .ok ⟨[0x41, 0x42], 0x03, true, .ok⟩ :=
  ⟨by decide, c4_roundtrip_amended.1 _ (by decide)⟩

/-- C5 counterexample: framing round trip fails for ChannelInfoResponse; its
encoded frame decodes to an UnknownMessage (type id (0x00, 0x0E) is not in the
decode dispatch), not to the original value, though the garbage is intact. -/
theorem c5_counterexample :
    decode_ht_message (encode_ht_message (.channelInfoResponse ⟨0x00, 0x00, []⟩) ++ [0x07]) =
      .ok (some (.unknown ⟨(0x00, 0x0E), [0x00, 0x00]⟩), [0x07]) ∧
    HTMessage.unknown ⟨(0x00, 0x0E), [0x00, 0x00]⟩ ≠
      HTMessage.channelInfoResponse ⟨0x00, 0x00, []⟩ := by
  decide

/-- C5 amended: decode_one (encode v ++ garbage) returns v and the untouched
garbage for RadioReceivedAprsChunk (chunk_num in 0..127), ChannelInfoRequest,
SetDigitalMessageUpdates and UnknownMessage whose type id is outside the known
decode set; an encoded ChannelInfoResponse instead decodes to the
UnknownMessage carrying type id (0x00, 0x0E) and its zeroed-action-id body. -/
theorem c5_frame_roundtrip_amended :
    (∀ m : RadioReceivedAprsChunk, m.chunk_num ≤ 127 → ∀ g : List Nat,
      decode_ht_message (encode_ht_message (.aprsChunk m) ++ g) =
        .ok (some (.aprsChunk m), g)) ∧
    (∀ (m : ChannelInfoRequest) (g : List Nat),
      decode_ht_message (encode_ht_message (.channelInfoRequest m) ++ g) =
        .ok (some (.channelInfoRequest m), g)) ∧
    (∀ (m : SetDigitalMessageUpdates) (g : List Nat),
      decode_ht_message (encode_ht_message (.setDigitalMessageUpdates m) ++ g) =
        .ok (some (.setDigitalMessageUpdates m), g)) ∧
    (∀ (t1 t2 : Nat) (data g : List Nat),
      ¬(t1 = 0x00 ∧ t2 = 0x09) → ¬(t1 = 0x00 ∧ t2 = 0x0D) →
      ¬(t1 = 0x80 ∧ t2 = 0x0D) → ¬(t1 = 0x00 ∧ t2 = 0x06) →
      decode_ht_message (encode_ht_message (.unknown ⟨(t1, t2), data⟩) ++ g) =
        .ok (some (.unknown ⟨(t1, t2), data⟩), g)) ∧
    (∀ (m : ChannelInfoResponse) (g : List Nat),
      decode_ht_message (encode_ht_message (.channelInfoResponse m) ++ g) =
        .ok (some (.unknown ⟨(0x00, 0x0E), 0x00 :: m.channel_id :: m.channel_data⟩), g)) :=
  ⟨fun m h g => decode_encode_aprs m h g,
   fun m g => decode_encode_cirq m g,
   fun m g => decode_encode_sdmu m g,
   fun t1 t2 data g h1 h2 h3 h4 => decode_encode_unknown t1 t2 data g h1 h2 h3 h4,
   fun m g => decode_encode_cirsp m g⟩

/-- C5 witness: the amended framing round trip at a concrete APRS chunk with
trailing garbage. -/
theorem c5_witness :
    (⟨[0x41], 0x03, true, .ok⟩ : RadioReceivedAprsChunk).chunk_num ≤ 127 ∧
    decode_ht_message (encode_ht_message (.aprsChunk ⟨[0x41], 0x03, true, .ok⟩) ++ [0x09]) =
      .ok (some (.aprsChunk ⟨[0x41], 0x03, true, .ok⟩), [0x09]) :=
  ⟨by decide, c5_frame_roundtrip_amended.1 _ (by decide) [0x09]⟩

/-- C6 counterexample: two handlers, the first raising, the second recording
its delivery in the state. The dispatch loop returns the propagated error:
the second handler never records anything, so the failure of the first
handler both blocks delivery to the later handler and escapes the loop. -/
theorem c6_counterexample :
    AudioConnection.dispatch_on_msg
      [fun (_ : Nat) (_ : List Nat) => Except.error 0,
       fun (_ : Nat) (delivered : List Nat) => Except.ok (delivered ++ [1])]
      0 [] = Except.error 0 :=
  rfl

/-- C6 amended: a handler exception is not isolated; it propagates out of the
dispatch loop immediately, so the handlers registered after the failing one
are never invoked for that message, whatever they are. -/
theorem c6_dispatch_propagates {α σ ε : Type} (h : α → σ → Except ε σ)
    (hs : List (α → σ → Except ε σ)) (msg : α) (s : σ) (e : ε)
    (hfail : h msg s = .error e) :
    AudioConnection.dispatch_on_msg (h :: hs) msg s = .error e := by
  simp [AudioConnection.dispatch_on_msg, hfail]

/-- C6 witness: the propagation theorem at a concrete failing handler with two
recording handlers after it. -/
theorem c6_witness :
    (fun (_ : Nat) (_ : List Nat) => Except.error 7) 0 [] = (Except.error 7 : Except Nat (List Nat)) ∧
    AudioConnection.dispatch_on_msg
      [fun (_ : Nat) (_ : List Nat) => Except.error 7,
       fun (_ : Nat) (delivered : List Nat) => Except.ok (delivered ++ [2]),
       fun (_ : Nat) (delivered : List Nat) => Except.ok (delivered ++ [3])]
      0 [] = Except.error 7 :=
  ⟨rfl, c6_dispatch_propagates _ _ _ _ _ rfl⟩

/-- C7 counterexample: on a buffer whose constant_1 is 0x02 the raised
HeaderDecodeError carries the post-header remainder (here the empty list),
not the offending header bytes: the malformed header is absent from the
error value. -/
theorem c7_counterexample :
    decode_ht_message [0xff, 0x02, 0x00, 0x00, 0x00, 0x02, 0x00, 0x09] =
      .error (.headerErr "Expected byte[1](constant_1) = 0x01, got 2" []) ∧
    ([] : List Nat) ≠ [0xff, 0x02, 0x00, 0x00, 0x00, 0x02, 0x00, 0x09] := by
  decide

/-- C7 amended: on an 8-byte-or-longer buffer the header constants are checked
in the order start_flag, constant_1, reserved_1, reserved_2, constant_2; the
first mismatch raises HeaderDecodeError with a message naming the field and
the expected and actual values, carrying the remainder of the buffer after
the 8-byte header (not the offending header bytes), and no body decode is
attempted. -/
theorem c7_header_error_amended :
    (∀ (s c1 r1 bl r2 c2 t1 t2 : Nat) (rest : List Nat), s ≠ 0xff →
      decode_ht_message (s :: c1 :: r1 :: bl :: r2 :: c2 :: t1 :: t2 :: rest) =
        .error (.headerErr ("Expected byte[0](start_flag) = 0xff, got " ++ toString s) rest)) ∧
    (∀ (c1 r1 bl r2 c2 t1 t2 : Nat) (rest : List Nat), c1 ≠ 0x01 →
      decode_ht_message (0xff :: c1 :: r1 :: bl :: r2 :: c2 :: t1 :: t2 :: rest) =
        .error (.headerErr ("Expected byte[1](constant_1) = 0x01, got " ++ toString c1) rest)) ∧
    (∀ (r1 bl r2 c2 t1 t2 : Nat) (rest : List Nat), r1 ≠ 0x00 →
      decode_ht_message (0xff :: 0x01 :: r1 :: bl :: r2 :: c2 :: t1 :: t2 :: rest) =
        .error (.headerErr ("Expected byte[2](reserved_1) = 0x00, got " ++ toString r1) rest)) ∧
    (∀ (bl r2 c2 t1 t2 : Nat) (rest : List Nat), r2 ≠ 0x00 →
      decode_ht_message (0xff :: 0x01 :: 0x00 :: bl :: r2 :: c2 :: t1 :: t2 :: rest) =
        .error (.headerErr ("Expected byte[4](reserved_2) = 0x00, got " ++ toString r2) rest)) ∧
    (∀ (bl c2 t1 t2 : Nat) (rest : List Nat), c2 ≠ 0x02 →
      decode_ht_message (0xff :: 0x01 :: 0x00 :: bl :: 0x00 :: c2 :: t1 :: t2 :: rest) =
        .error (.headerErr ("Expected byte[5](constant_2) = 0x02, got " ++ toString c2) rest)) := by
  refine ⟨?_, ?_, ?_, ?_, ?_⟩ <;>
  · intros
    simp only [decode_ht_message]
    simp [*]

/-- C7 witness: the constant_1 case of the amended theorem at a concrete
buffer, exhibiting the empty carried remainder. -/
theorem c7_witness :
    ((3 : Nat) ≠ 0x01) ∧
    decode_ht_message [0xff, 0x03, 0x00, 0x00, 0x00, 0x02, 0x00, 0x09] =
      .error (.headerErr "Expected byte[1](constant_1) = 0x01, got 3" []) :=
  ⟨by decide, c7_header_error_amended.2.1 3 0 0 0 2 0 9 [] (by decide)⟩

/-- C8: for any type id outside the known decode set and any body, decoding
the well-formed frame never raises and yields UnknownMessage preserving the
exact type id and body, and re-encoding that UnknownMessage reproduces the
original frame bytes exactly. -/
theorem c8_unknown_total_roundtrip (t1 t2 : Nat) (body : List Nat)
    (h1 : ¬(t1 = 0x00 ∧ t2 = 0x09)) (h2 : ¬(t1 = 0x00 ∧ t2 = 0x0D))
    (h3 : ¬(t1 = 0x80 ∧ t2 = 0x0D)) (h4 : ¬(t1 = 0x00 ∧ t2 = 0x06)) :
    decode_ht_message ([0xff, 0x01, 0x00, body.length, 0x00, 0x02, t1, t2] ++ body) =
      .ok (some (.unknown ⟨(t1, t2), body⟩), []) ∧
    encode_ht_message (.unknown ⟨(t1, t2), body⟩) =
      [0xff, 0x01, 0x00, body.length, 0x00, 0x02, t1, t2] ++ body := by
  constructor
  · have h0 := decode_frame t1 t2 body []
    rw [List.append_nil] at h0
    rw [h0]
    simp [dispatch, h1, h2, h3, h4, UnknownMessage.from_message_body]
  · rfl

/-- C8 witness: the unknown-id round trip at type id (0x01, 0x01) with a
1-byte body, the example named in the specification. -/
theorem c8_witness :
    (¬((1 : Nat) = 0x00 ∧ (1 : Nat) = 0x09)) ∧
    decode_ht_message [0xff, 0x01, 0x00, 0x01, 0x00, 0x02, 0x01, 0x01, 0xAB] =
      .ok (some (.unknown ⟨(0x01, 0x01), [0xAB]⟩), []) ∧
    encode_ht_message (.unknown ⟨(0x01, 0x01), [0xAB]⟩) =
      [0xff, 0x01, 0x00, 0x01, 0x00, 0x02, 0x01, 0x01, 0xAB] :=
  ⟨by decide, c8_unknown_total_roundtrip 1 1 [0xAB] (by decide) (by decide) (by decide) (by decide)⟩

/-- C9 counterexample: feeding the literal bytes 00 00 FF followed by an
encoded frame raises HeaderDecodeError instead of yielding the message:
resynchronization keeps the first 0xff found (the prepended one), so the
frame's own start marker lands in the constant_1 position. -/
theorem c9_counterexample :
    HTMessageStream.feed []
      ([0x00, 0x00, 0xff] ++ encode_ht_message (.channelInfoRequest ⟨0x05⟩)) =
      ([0xff, 0xff, 0x01, 0x00, 0x01, 0x00, 0x02, 0x00, 0x0D, 0x05],
        .raised (.headerErr "Expected byte[1](constant_1) = 0x01, got 255" [0x0D, 0x05])) ∧
    FeedResult.raised (.headerErr "Expected byte[1](constant_1) = 0x01, got 255" [0x0D, 0x05]) ≠
      .ok [.channelInfoRequest ⟨0x05⟩] := by
  decide

/-- C9 amended: for every message whose encoded frame decodes back to itself,
feeding 00 00 followed by encode(msg) to a fresh stream decoder in one call
yields exactly [msg] and raises no error: the garbage bytes strictly before
the frame's own 0xFF start marker are discarded by resynchronization. -/
theorem c9_resync_amended (msg : HTMessage)
    (h : decode_ht_message (encode_ht_message msg) = .ok (some msg, [])) :
    HTMessageStream.feed [] ([0x00, 0x00] ++ encode_ht_message msg) = ([], .ok [msg]) := by
  obtain ⟨tail, htail⟩ : ∃ tail, encode_ht_message msg = 0xff :: tail := ⟨_, rfl⟩
  have h0 : (encode_ht_message msg).length = msg.to_message_body.length + 8 := by
    simp [encode_ht_message]
  rw [htail] at h0
  simp only [List.length_cons] at h0
  rw [htail] at h ⊢
  show feedLoop ((0x00 :: 0x00 :: 0xff :: tail).length + 1) (0x00 :: 0x00 :: 0xff :: tail) [] =
    ([], .ok [msg])
  have h8a : ¬ (0x00 :: 0x00 :: 0xff :: tail).length < 8 := by
    simp only [List.length_cons]; omega
  have hha : (0x00 :: 0x00 :: 0xff :: tail).headI ≠ 0xff := by simp
  have hfa : find_ff (0x00 :: 0x00 :: 0xff :: tail) = some 2 := by
    simp [find_ff]
  rw [feedLoop_resync ((0x00 :: 0x00 :: 0xff :: tail).length) _ _ 2 h8a hha hfa]
  show feedLoop ((tail.length + 2) + 1) (0xff :: tail) [] = ([], .ok [msg])
  have h8b : ¬ (0xff :: tail).length < 8 := by
    simp only [List.length_cons]; omega
  rw [feedLoop_msg (tail.length + 2) (0xff :: tail) [] msg [] h8b rfl h]
  show feedLoop ((tail.length + 1) + 1) [] [msg] = ([], .ok [msg])
  rw [feedLoop_low (tail.length + 1) [] [msg] (by simp)]

/-- C9 witness: the amended resynchronization at ChannelInfoRequest(5). -/
theorem c9_witness :
    decode_ht_message (encode_ht_message (.channelInfoRequest ⟨0x05⟩)) =
      .ok (some (.channelInfoRequest ⟨0x05⟩), []) ∧
    HTMessageStream.feed [] ([0x00, 0x00] ++ encode_ht_message (.channelInfoRequest ⟨0x05⟩)) =
      ([], .ok [.channelInfoRequest ⟨0x05⟩]) :=
  ⟨by decide, c9_resync_amended _ (by decide)⟩

/-- C10 counterexample: a feed call whose buffer holds a decodable
ChannelInfoRequest(5) frame followed by a frame with constant_1 = 3 raises and
loses the decoded message — but the failing frame's bytes are NOT removed
from the accumulator: the buffer assignment is skipped when the decode
raises, so the accumulator still holds the entire failing frame. -/
theorem c10_counterexample :
    HTMessageStream.feed []
      ([0xff, 0x01, 0x00, 0x01, 0x00, 0x02, 0x00, 0x0D, 0x05] ++
        [0xff, 0x03, 0x00, 0x00, 0x00, 0x02, 0x00, 0x00]) =
      ([0xff, 0x03, 0x00, 0x00, 0x00, 0x02, 0x00, 0x00],
        .raised (.headerErr "Expected byte[1](constant_1) = 0x01, got 3" [])) ∧
    ([0xff, 0x03, 0x00, 0x00, 0x00, 0x02, 0x00, 0x00] : List Nat) ≠ [] := by
  decide

/-- C10 amended: feed is not atomic on decode errors: if the buffer holds a
frame decoding to m1 followed by a frame whose decode raises, the call raises
and m1 is never returned, with m1's bytes already removed from the
accumulator; the failing frame's bytes, however, remain in the accumulator
(the assignment is skipped when the decode raises), they are not removed. -/
theorem c10_feed_not_atomic_amended (m1 : HTMessage) (bad : List Nat) (e : DecodeError)
    (hdec : decode_ht_message (encode_ht_message m1 ++ bad) = .ok (some m1, bad))
    (hblen : 8 ≤ bad.length) (hbhead : bad.headI = 0xff)
    (hbad : decode_ht_message bad = .error e) :
    HTMessageStream.feed [] (encode_ht_message m1 ++ bad) = (bad, .raised e) := by
  obtain ⟨tail, htail⟩ : ∃ tail, encode_ht_message m1 ++ bad = 0xff :: tail := ⟨_, rfl⟩
  have h0 : (encode_ht_message m1 ++ bad).length =
      m1.to_message_body.length + 8 + bad.length := by
    simp [encode_ht_message, List.length_append]
    omega
  rw [htail] at h0
  simp only [List.length_cons] at h0
  rw [htail] at hdec ⊢
  show feedLoop ((0xff :: tail).length + 1) (0xff :: tail) [] = (bad, .raised e)
  have h8a : ¬ (0xff :: tail).length < 8 := by
    simp only [List.length_cons]; omega
  rw [feedLoop_msg ((0xff :: tail).length) (0xff :: tail) [] m1 bad h8a rfl hdec]
  show feedLoop (tail.length + 1) bad [m1] = (bad, .raised e)
  have h8b : ¬ bad.length < 8 := by omega
  rw [feedLoop_err tail.length bad [m1] e h8b hbhead hbad]

/-- C10 witness: the amended non-atomicity theorem at
SetDigitalMessageUpdates(true) followed by a frame with constant_1 = 4. -/
theorem c10_witness :
    decode_ht_message
      (encode_ht_message (.setDigitalMessageUpdates ⟨true⟩) ++
        [0xff, 0x04, 0x00, 0x00, 0x00, 0x02, 0x00, 0x00]) =
      .ok (some (.setDigitalMessageUpdates ⟨true⟩),
        [0xff, 0x04, 0x00, 0x00, 0x00, 0x02, 0x00, 0x00]) ∧
    8 ≤ ([0xff, 0x04, 0x00, 0x00, 0x00, 0x02, 0x00, 0x00] : List Nat).length ∧
    ([0xff, 0x04, 0x00, 0x00, 0x00, 0x02, 0x00, 0x00] : List Nat).headI = 0xff ∧
    decode_ht_message [0xff, 0x04, 0x00, 0x00, 0x00, 0x02, 0x00, 0x00] =
      .error (.headerErr "Expected byte[1](constant_1) = 0x01, got 4" []) ∧
    HTMessageStream.feed []
      (encode_ht_message (.setDigitalMessageUpdates ⟨true⟩) ++
        [0xff, 0x04, 0x00, 0x00, 0x00, 0x02, 0x00, 0x00]) =
      ([0xff, 0x04, 0x00, 0x00, 0x00, 0x02, 0x00, 0x00],
        .raised (.headerErr "Expected byte[1](constant_1) = 0x01, got 4" [])) :=
  ⟨by decide, by decide, by decide, by decide,
    c10_feed_not_atomic_amended _ _ _ (by decide) (by decide) (by decide) (by decide)⟩
